import Mathlib

set_option autoImplicit false

/-
  Shallow embedding of the Glitch Wars server core (binacshera-ui/oroboros-engine).

  The embedded components are the four server-side modules:
    - MapStorage   (src/server/src/MapStorage.js)   : sparse voxel world-delta store
    - Player       (src/server/src/Player.js)       : player session model
    - GameRoom     (src/server/src/GameRoom.js)     : room simulation and mining economy
    - RoomManager  (src/unnamed/part_000)           : gatekeeper, tier routing, sweeps

  Modelling conventions:
    - JS Map objects become association lists with replace-first update
      (JS Map keys are unique, so replace-first agrees with JS semantics).
    - Wall-clock timestamps (Date.now) become explicit Int parameters in ms.
    - Numbers carried by game state are modelled over an arbitrary linear
      ordered field K (instantiated at the rationals or the reals in theorems);
      Math.sqrt is passed explicitly as a function parameter.
    - Socket sends become explicit event lists (recipient id, message); the
      readyState guard inside Player.send is thin I/O and is not modelled.
    - Disk persistence (save/load) is I/O; toJSON/fromJSON, the pure
      serialization core, is modelled. A freshly constructed store is modelled
      in the no-prior-save-file state.
    - The async wallet-balance lookup is an external collaborator; its outcome
      is passed to handleLogin as an Except value (error = the lookup threw).
-/

-- ===========================================================================
-- JS Map model: association lists with replace-first update
-- ===========================================================================

/-- Lookup in a JS-Map-style association list (first matching key wins). -/
def mapFind {α β : Type} [DecidableEq α] (m : List (α × β)) (k : α) : Option β :=
  match m with
  | [] => none
  | (k0, v0) :: rest => if k0 = k then some v0 else mapFind rest k

/-- JS Map.set: replace the value at an existing key in place, else append. -/
def mapSet {α β : Type} [DecidableEq α] (m : List (α × β)) (k : α) (v : β) : List (α × β) :=
  match m with
  | [] => [(k, v)]
  | (k0, v0) :: rest => if k0 = k then (k, v) :: rest else (k0, v0) :: mapSet rest k v

/-- JS Map.delete: remove the entry at a key (first occurrence). -/
def mapErase {α β : Type} [DecidableEq α] (m : List (α × β)) (k : α) : List (α × β) :=
  match m with
  | [] => []
  | (k0, v0) :: rest => if k0 = k then rest else (k0, v0) :: mapErase rest k

/-- JS String.prototype.startsWith over the character list (the byte-based
core String.startsWith computes the same predicate). -/
def strStartsWith (s pre : String) : Bool :=
  pre.data.isPrefixOf s.data

/-- JS expression x || d on optional numbers: undefined, null and 0 all fall
back to the default d. -/
def jsOr (x : Option Nat) (d : Nat) : Nat :=
  match x with
  | none => d
  | some v => if v = 0 then d else v

-- ===========================================================================
-- Block types, values and the mineable set (MapStorage.js lines 17-42)
-- ===========================================================================

def AIR : Nat := 0
def CONCRETE_FLOOR : Nat := 1
def CONCRETE_WALL : Nat := 2
def HAZARD_NEON : Nat := 3
def EXTRACTION_BEAM : Nat := 4
def BEDROCK : Nat := 5
def GOLD_LOOT : Nat := 6
def METAL_BRIDGE : Nat := 7

/-- Static block-value table BLOCK_VALUE (economy). Types absent from the
table map to none. -/
def BLOCK_VALUE (t : Nat) : Option Nat :=
  if t = GOLD_LOOT then some 50
  else if t = CONCRETE_FLOOR then some 1
  else if t = CONCRETE_WALL then some 2
  else if t = METAL_BRIDGE then some 5
  else none

/-- Static mineable-block set MINEABLE_BLOCKS. -/
def MINEABLE_BLOCKS : List Nat := [GOLD_LOOT, CONCRETE_FLOOR, CONCRETE_WALL, METAL_BRIDGE]

-- ===========================================================================
-- MapStorage: the world-delta store (MapStorage.js)
-- ===========================================================================

/-- Voxel coordinate key. The JS code keys its maps on the string
x,y,z built with Math.floor; handlers only ever pass integers, on which that
key is in bijection with the integer triple, so the triple itself is the key. -/
abbrev Coord : Type := Int × Int × Int

/-- Loot spawn entry: type, value, spawn time, collected flag. -/
structure LootEntry where
  type : Nat
  value : Nat
  spawnTime : Int
  collected : Bool
  deriving DecidableEq, Repr

/-- Mutable state of one MapStorage instance (persistence timers aside). -/
structure MapStorage where
  blockChanges : List (Coord × Nat)
  lootSpawns : List (Coord × LootEntry)
  totalBlocksMined : Nat
  totalGoldMined : Nat
  isDirty : Bool
  deriving DecidableEq, Repr

/-- State of a freshly constructed MapStorage with no prior save file. -/
def emptyMapStorage : MapStorage :=
  { blockChanges := [], lootSpawns := [], totalBlocksMined := 0,
    totalGoldMined := 0, isDirty := false }

/-- MapStorage.isModified: true iff the coordinate has an override. -/
def MapStorage.isModified (s : MapStorage) (c : Coord) : Bool :=
  (mapFind s.blockChanges c).isSome

/-- MapStorage.getBlock: the override if present, else none (caller falls back
to procedural generation). -/
def MapStorage.getBlock (s : MapStorage) (c : Coord) : Option Nat :=
  mapFind s.blockChanges c

/-- MapStorage.setBlock: unconditional override write; marks the store dirty. -/
def MapStorage.setBlock (s : MapStorage) (c : Coord) (blockType : Nat) : MapStorage :=
  { s with blockChanges := mapSet s.blockChanges c blockType, isDirty := true }

/-- Result record returned by MapStorage.mineBlock. -/
structure MineResult where
  success : Bool
  value : Nat
  wasGold : Bool
  reason : String
  deriving DecidableEq, Repr

/-- MapStorage.mineBlock: reject ALREADY_MINED if the override is AIR, reject
NOT_MINEABLE if the claimed type is outside the mineable set, else set the
override to AIR, bump counters, mark dirty and price the block. -/
def MapStorage.mineBlock (s : MapStorage) (c : Coord) (originalBlockType : Nat) :
    MapStorage × MineResult :=
  if mapFind s.blockChanges c = some AIR then
    (s, { success := false, value := 0, wasGold := false, reason := "ALREADY_MINED" })
  else if ¬ originalBlockType ∈ MINEABLE_BLOCKS then
    (s, { success := false, value := 0, wasGold := false, reason := "NOT_MINEABLE" })
  else
    let value := jsOr (BLOCK_VALUE originalBlockType) 1
    let wasGold := originalBlockType = GOLD_LOOT
    ({ s with
        blockChanges := mapSet s.blockChanges c AIR,
        isDirty := true,
        totalBlocksMined := s.totalBlocksMined + 1,
        totalGoldMined := if wasGold then s.totalGoldMined + 1 else s.totalGoldMined },
     { success := true, value := value, wasGold := wasGold, reason := "OK" })

/-- MapStorage.registerLoot: insert or overwrite a loot entry, collected=false,
stamped with the current time. Does not touch the dirty flag (as in source). -/
def MapStorage.registerLoot (s : MapStorage) (c : Coord) (type value : Nat) (now : Int) :
    MapStorage :=
  { s with lootSpawns :=
      mapSet s.lootSpawns c ({ type := type, value := value, spawnTime := now, collected := false }) }

/-- MapStorage.getLoot: the entry only if present and not collected. -/
def MapStorage.getLoot (s : MapStorage) (c : Coord) : Option LootEntry :=
  match mapFind s.lootSpawns c with
  | none => none
  | some loot => if loot.collected then none else some loot

/-- MapStorage.collectLoot: reject if absent or collected, else mark collected
and dirty and return the value. -/
def MapStorage.collectLoot (s : MapStorage) (c : Coord) : MapStorage × Bool × Nat :=
  match mapFind s.lootSpawns c with
  | none => (s, false, 0)
  | some loot =>
    if loot.collected then (s, false, 0)
    else
      ({ s with lootSpawns := mapSet s.lootSpawns c ({ loot with collected := true }),
                isDirty := true },
       true, loot.value)

/-- Serialized record produced by MapStorage.toJSON (the savedAt wall-clock
string is presentation only and omitted). -/
structure MapSave where
  version : Nat
  totalBlocksMined : Nat
  totalGoldMined : Nat
  changedBlocks : Nat
  blockChanges : List (Coord × Nat)
  lootSpawns : List (Coord × LootEntry)
  deriving DecidableEq, Repr

/-- MapStorage.toJSON: version tag, aggregate stats and both maps as entry
lists. -/
def MapStorage.toJSON (s : MapStorage) : MapSave :=
  { version := 1,
    totalBlocksMined := s.totalBlocksMined,
    totalGoldMined := s.totalGoldMined,
    changedBlocks := s.blockChanges.length,
    blockChanges := s.blockChanges,
    lootSpawns := s.lootSpawns }

/-- MapStorage.fromJSON: an unknown version tag skips the load entirely;
version 1 restores counters and both maps from the entry lists. -/
def MapStorage.fromJSON (s : MapStorage) (data : MapSave) : MapStorage :=
  if data.version ≠ 1 then s
  else
    { s with
        totalBlocksMined := jsOr (some data.totalBlocksMined) 0,
        totalGoldMined := jsOr (some data.totalGoldMined) 0,
        blockChanges := data.blockChanges,
        lootSpawns := data.lootSpawns }

/-- MapStorage.getChangesForSync: every override as an absolute entry (the JS
code re-parses its string keys, which round-trips to the entry list). -/
def MapStorage.getChangesForSync (s : MapStorage) : List (Coord × Nat) :=
  s.blockChanges

-- ===========================================================================
-- Public operation sequences on the store (for the one-way mining invariant)
-- ===========================================================================

/-- One mutating public gameplay operation on the store. -/
inductive StoreOp where
  | mine (c : Coord) (originalBlockType : Nat)
  | setBlock (c : Coord) (blockType : Nat)
  | registerLoot (c : Coord) (type value : Nat) (now : Int)
  | collectLoot (c : Coord)
  deriving DecidableEq, Repr

/-- Apply one store operation, discarding its reply. -/
def applyOp (s : MapStorage) : StoreOp → MapStorage
  | .mine c t => (s.mineBlock c t).1
  | .setBlock c t => s.setBlock c t
  | .registerLoot c ty v now => s.registerLoot c ty v now
  | .collectLoot c => (s.collectLoot c).1

/-- Apply a sequence of store operations in order. -/
def applyOps (s : MapStorage) (ops : List StoreOp) : MapStorage :=
  ops.foldl applyOp s

/-- Whether an operation writes the override of the given coordinate other
than through mineBlock (i.e. is a setBlock on that coordinate). -/
def StoreOp.writesCoord (c : Coord) : StoreOp → Bool
  | .setBlock c2 _ => c2 = c
  | _ => false

-- ===========================================================================
-- Player tiers and thresholds (Player.js lines 15-25)
-- ===========================================================================

/-- Player economic tier (PLAYER_TIER in Player.js). -/
inductive PLAYER_TIER where
  | SCAVENGER
  | OPERATOR
  | WHALE
  deriving DecidableEq, Repr

/-- Numeric rank of a player tier, for monotonicity statements. -/
def tierRank : PLAYER_TIER → Nat
  | .SCAVENGER => 0
  | .OPERATOR => 1
  | .WHALE => 2

/-- Tier threshold TIER_THRESHOLDS.OPERATOR. -/
def TIER_THRESHOLDS_OPERATOR : Nat := 100

/-- Tier threshold TIER_THRESHOLDS.WHALE. -/
def TIER_THRESHOLDS_WHALE : Nat := 1000

/-- Player.calculateTier: at or above the WHALE threshold gives WHALE, else at
or above the OPERATOR threshold gives OPERATOR, else SCAVENGER. -/
def calculateTier {K : Type} [LinearOrderedField K] (balance : K) : PLAYER_TIER :=
  if balance ≥ (TIER_THRESHOLDS_WHALE : K) then .WHALE
  else if balance ≥ (TIER_THRESHOLDS_OPERATOR : K) then .OPERATOR
  else .SCAVENGER

-- ===========================================================================
-- Room tiers and configuration (GameRoom.js lines 16-60)
-- ===========================================================================

/-- Room tier (ROOM_TIER in GameRoom.js). -/
inductive ROOM_TIER where
  | FREE
  | PREMIUM
  | WHALE
  deriving DecidableEq, Repr

/-- Lower-case tier name used when generating room ids. -/
def ROOM_TIER.lowerName : ROOM_TIER → String
  | .FREE => "free"
  | .PREMIUM => "premium"
  | .WHALE => "whale"

/-- Per-tier immutable room configuration record. -/
structure TierConfig where
  name : String
  maxPlayers : Nat
  mapSizeX : Int
  mapSizeZ : Int
  lootMultiplier : ℚ
  goldSpawnRate : ℚ
  description : String
  deriving DecidableEq, Repr

/-- Static TIER_CONFIG table. -/
def TIER_CONFIG : ROOM_TIER → TierConfig
  | .FREE =>
    { name := "Scavenger Zone", maxPlayers := 50, mapSizeX := 128, mapSizeZ := 128,
      lootMultiplier := 1, goldSpawnRate := 1/100,
      description := "Entry-level zone. Low risk, low reward." }
  | .PREMIUM =>
    { name := "Operator Arena", maxPlayers := 30, mapSizeX := 256, mapSizeZ := 256,
      lootMultiplier := 5/2, goldSpawnRate := 3/100,
      description := "Mid-tier zone. Better loot, more competition." }
  | .WHALE =>
    { name := "Whale Depths", maxPlayers := 20, mapSizeX := 512, mapSizeZ := 512,
      lootMultiplier := 5, goldSpawnRate := 8/100,
      description := "Elite zone. Massive rewards, dangerous terrain." }

/-- determineRoomTier (part_000 lines 49-56): room-tier routing from the
staked balance with the same two thresholds as Player.calculateTier. -/
def determineRoomTier {K : Type} [LinearOrderedField K] (stakedBalance : K) : ROOM_TIER :=
  if stakedBalance ≥ (TIER_THRESHOLDS_WHALE : K) then .WHALE
  else if stakedBalance ≥ (TIER_THRESHOLDS_OPERATOR : K) then .PREMIUM
  else .FREE

/-- Canonical correspondence between player tiers and room tiers (SCAVENGER
plays in FREE rooms, OPERATOR in PREMIUM rooms, WHALE in WHALE rooms). -/
def roomTierForPlayerTier : PLAYER_TIER → ROOM_TIER
  | .SCAVENGER => .FREE
  | .OPERATOR => .PREMIUM
  | .WHALE => .WHALE

-- ===========================================================================
-- Physics and validation constants (GameRoom.js lines 53-60)
-- ===========================================================================

/-- PHYSICS.MAX_SPEED (units per second). -/
def MAX_SPEED (K : Type) [LinearOrderedField K] : K := 15

/-- PHYSICS.MAX_TELEPORT, the hard teleport threshold. -/
def MAX_TELEPORT (K : Type) [LinearOrderedField K] : K := 10

/-- PHYSICS.MINING_RANGE. -/
def MINING_RANGE (K : Type) [LinearOrderedField K] : K := 5

/-- PHYSICS.MINING_COOLDOWN in ms. -/
def MINING_COOLDOWN : Int := 250

-- ===========================================================================
-- Player session model (Player.js)
-- ===========================================================================

/-- Pending-input buffer: latest client INPUT, overwritten not queued. -/
structure InputBuffer (K : Type) where
  x : K
  y : K
  z : K
  yaw : K
  timestamp : Int
  deriving DecidableEq

/-- Player session state (Player.js constructor). The socket itself is I/O
and is represented only through emitted message events. -/
structure Player (K : Type) where
  id : String
  wallet : Option String
  isAuthenticated : Bool
  tier : PLAYER_TIER
  stakedBalance : K
  gameBalance : Nat
  totalLoot : Nat
  x : K
  y : K
  z : K
  yaw : K
  roomId : Option String
  lastUpdate : Int
  lastMineTime : Int
  inputBuffer : Option (InputBuffer K)
  violations : Nat
  lastViolationTime : Int
  deriving DecidableEq

/-- Freshly connected player (Player.js constructor defaults). -/
def newPlayer {K : Type} [LinearOrderedField K] (id : String) (now : Int) : Player K :=
  { id := id, wallet := none, isAuthenticated := false, tier := .SCAVENGER,
    stakedBalance := 0, gameBalance := 0, totalLoot := 0,
    x := 0, y := 6, z := 0, yaw := 0, roomId := none,
    lastUpdate := now, lastMineTime := 0, inputBuffer := none,
    violations := 0, lastViolationTime := 0 }

/-- Player.authenticate: record wallet and stake, derive the tier, flip the
authenticated flag (idempotent overwrite). -/
def Player.authenticate {K : Type} [LinearOrderedField K]
    (p : Player K) (wallet : String) (stakedBalance : K) : Player K :=
  { p with wallet := some wallet, stakedBalance := stakedBalance,
           isAuthenticated := true, tier := calculateTier stakedBalance }

/-- Player.updatePosition: unconditional position/orientation write. -/
def Player.updatePosition {K : Type} [LinearOrderedField K]
    (p : Player K) (x y z yaw : K) (now : Int) : Player K :=
  { p with x := x, y := y, z := z, yaw := yaw, lastUpdate := now }

/-- Player.distanceTo: Euclidean distance from the current position; the
square root is the explicitly passed model of Math.sqrt. -/
def Player.distanceTo {K : Type} [LinearOrderedField K]
    (sqrt : K → K) (p : Player K) (x y z : K) : K :=
  let dx := p.x - x
  let dy := p.y - y
  let dz := p.z - z
  sqrt (dx * dx + dy * dy + dz * dz)

/-- Player.canReachBlock: within MINING_RANGE of the block coordinate. -/
def Player.canReachBlock {K : Type} [LinearOrderedField K]
    (sqrt : K → K) (p : Player K) (blockX blockY blockZ : Int) : Bool :=
  decide (p.distanceTo sqrt (blockX : K) (blockY : K) (blockZ : K) ≤ MINING_RANGE K)

/-- Player.addEarnings: add to the game balance, bump the extraction count,
return the new total. -/
def Player.addEarnings {K : Type} [LinearOrderedField K]
    (p : Player K) (amount : Nat) : Player K × Nat :=
  ({ p with gameBalance := p.gameBalance + amount, totalLoot := p.totalLoot + 1 },
   p.gameBalance + amount)

-- ===========================================================================
-- Outbound protocol messages and send events
-- ===========================================================================

/-- Compact per-player state serialized into each STATE broadcast
(Player.serialize). -/
structure SerializedPlayer (K : Type) where
  id : String
  x : K
  y : K
  z : K
  yaw : K
  tier : PLAYER_TIER
  gameBalance : Nat
  deriving DecidableEq

/-- Outbound message shapes produced by the core. -/
inductive Msg (K : Type) where
  | CONNECTED (serverId : String)
  | LOGIN_FAILED (reason : String)
  | ROOM_JOINED (roomId : String) (tier : ROOM_TIER) (spawnX spawnY spawnZ : K)
      (playerCount : Nat) (mapChanges : List (Coord × Nat))
  | PLAYER_JOINED (playerId : String) (tier : PLAYER_TIER) (playerCount : Nat)
  | PLAYER_LEFT (playerId : String) (playerCount : Nat)
  | STATE (tick : Nat) (time : Int) (roomId : String) (players : List (SerializedPlayer K))
  | POSITION_CORRECTION (x y z : K) (reason : String)
  | MINE_SUCCESS (blockX blockY blockZ : Int) (reward : Nat) (newBalance : Nat) (wasGold : Bool)
  | BLOCK_MINED (playerId : String) (blockX blockY blockZ : Int) (newType : Nat)
  | PONG (clientTime : Int) (serverTime : Int) (tick : Nat)
  | CHAT (playerId : String) (message : String) (tier : PLAYER_TIER)
  | KICKED (reason : String)
  | SERVER_SHUTDOWN (message : String)
  | ERROR (message : String)
  deriving DecidableEq

/-- One socket send: recipient session id and the message. -/
abbrev Event (K : Type) : Type := String × Msg K

/-- JS Math.round(x * 1000) / 1000 as used by Player.serialize; Math.round
and Mathlib round agree (both round half toward positive infinity). -/
def round3 {K : Type} [LinearOrderedField K] [FloorRing K] (x : K) : K :=
  ((round (x * 1000) : Int) : K) / 1000

/-- Player.serialize: compact state for network transmission. -/
def Player.serialize {K : Type} [LinearOrderedField K] [FloorRing K]
    (p : Player K) : SerializedPlayer K :=
  { id := p.id, x := round3 p.x, y := round3 p.y, z := round3 p.z,
    yaw := round3 p.yaw, tier := p.tier, gameBalance := p.gameBalance }

/-- Player.addViolation: reset the counter if more than 30 s passed since the
previous violation, then increment; at 5 or more violations the player is
kicked (KICKED message, socket close) and true is returned. The messages in
the result are those sent to this player. -/
def Player.addViolation {K : Type} [LinearOrderedField K]
    (p : Player K) (_vtype : String) (now : Int) : Player K × Bool × List (Msg K) :=
  let p1 := if now - p.lastViolationTime > 30000 then { p with violations := 0 } else p
  let p2 := { p1 with violations := p1.violations + 1, lastViolationTime := now }
  if p2.violations ≥ 5 then
    (p2, true, [Msg.KICKED ("Too many violations")])
  else
    (p2, false, [])

-- ===========================================================================
-- GameRoom: room simulation loop, admission, mining (GameRoom.js)
-- ===========================================================================

/-- Room state (GameRoom.js constructor; the tick timer itself is scheduling
I/O, tick is invoked with the current time). -/
structure GameRoom (K : Type) where
  roomId : String
  tier : ROOM_TIER
  players : List (String × Player K)
  mapStorage : MapStorage
  tickCount : Nat
  lastTickTime : Int
  isRunning : Bool
  createdAt : Int
  totalPlayersJoined : Nat
  deriving DecidableEq

/-- Tier-derived configuration of a room. -/
def GameRoom.config {K : Type} (r : GameRoom K) : TierConfig :=
  TIER_CONFIG r.tier

/-- Freshly constructed room (GameRoom.js constructor) with a fresh store
(no prior save file for its storage key). -/
def newGameRoom {K : Type} [LinearOrderedField K]
    (roomId : String) (tier : ROOM_TIER) (now : Int) : GameRoom K :=
  { roomId := roomId, tier := tier, players := [], mapStorage := emptyMapStorage,
    tickCount := 0, lastTickTime := now, isRunning := false,
    createdAt := now, totalPlayersJoined := 0 }

/-- GameRoom.broadcast: one send event per member, optionally excluding one id
(the isConnected guard is socket I/O and not modelled). -/
def GameRoom.broadcast {K : Type} (r : GameRoom K) (m : Msg K) (excludeId : Option String) :
    List (Event K) :=
  (r.players.filter (fun q => some q.1 ≠ excludeId)).map (fun q => (q.1, m))

/-- GameRoom.shouldCleanup: no players and more than five minutes since the
last tick. -/
def GameRoom.shouldCleanup {K : Type} (r : GameRoom K) (now : Int) : Bool :=
  r.players.length == 0 && decide (now - r.lastTickTime > 5 * 60 * 1000)

/-- GameRoom.addPlayer: reject with ROOM_FULL at capacity; otherwise spawn the
player at the fixed default, add to membership, reply with ROOM_JOINED (room
config, spawn, occupancy, full world-delta snapshot) and broadcast
PLAYER_JOINED to the others. Returns the updated room, the failure reason if
any, and the send events. -/
def GameRoom.addPlayer {K : Type} [LinearOrderedField K]
    (r : GameRoom K) (p : Player K) : GameRoom K × Option String × List (Event K) :=
  if r.players.length ≥ r.config.maxPlayers then
    (r, some "ROOM_FULL", [])
  else
    let p1 := { p with x := (0 : K), y := (6 : K), z := (0 : K), roomId := some r.roomId }
    let players1 := mapSet r.players p1.id p1
    let r1 := { r with players := players1,
                       totalPlayersJoined := r.totalPlayersJoined + 1 }
    let joinMsg : Msg K :=
      .ROOM_JOINED r.roomId r.tier p1.x p1.y p1.z players1.length
        (r.mapStorage.getChangesForSync)
    (r1, none,
     (p1.id, joinMsg) :: r1.broadcast (.PLAYER_JOINED p1.id p1.tier players1.length) (some p1.id))

/-- GameRoom.removePlayer: no-op if absent; otherwise remove membership and
broadcast PLAYER_LEFT with updated occupancy. -/
def GameRoom.removePlayer {K : Type} (r : GameRoom K) (playerId : String) :
    GameRoom K × List (Event K) :=
  match mapFind r.players playerId with
  | none => (r, [])
  | some _ =>
    let players1 := mapErase r.players playerId
    let r1 := { r with players := players1 }
    (r1, r1.broadcast (.PLAYER_LEFT playerId players1.length) none)

/-- GameRoom.processPlayerInput: three-way anti-cheat branch on the requested
displacement distance. Teleport: one TELEPORT violation plus a
POSITION_CORRECTION carrying the last authoritative position, no position
write. Speed hack: clamp the displacement to maxAllowedDist along the same
direction. Otherwise apply verbatim. The input buffer is cleared in every
branch. Returns the updated player and the messages sent to that player. -/
def GameRoom.processPlayerInput {K : Type} [LinearOrderedField K]
    (sqrt : K → K) (p : Player K) (deltaTime : K) (now : Int) :
    Player K × List (Msg K) :=
  match p.inputBuffer with
  | none => (p, [])
  | some input =>
    let dx := input.x - p.x
    let dy := input.y - p.y
    let dz := input.z - p.z
    let dist := sqrt (dx * dx + dy * dy + dz * dz)
    let maxAllowedDist := MAX_SPEED K * deltaTime * 2
    if dist > MAX_TELEPORT K then
      let pv := p.addViolation ("TELEPORT") now
      ({ pv.1 with inputBuffer := none },
       pv.2.2 ++ [Msg.POSITION_CORRECTION p.x p.y p.z ("TELEPORT_DETECTED")])
    else if dist > maxAllowedDist then
      let r := maxAllowedDist / dist
      let p1 := p.updatePosition (p.x + dx * r) (p.y + dy * r) (p.z + dz * r) input.yaw now
      ({ p1 with inputBuffer := none }, [])
    else
      let p1 := p.updatePosition input.x input.y input.z input.yaw now
      ({ p1 with inputBuffer := none }, [])

/-- GameRoom.tick: compute the elapsed delta, advance the clock and counter,
then (with at least one member) validate every pending input and broadcast one
STATE message with the serialized member list. With zero members the input and
broadcast phases are skipped, but the clock and counter still advance. -/
def GameRoom.tick {K : Type} [LinearOrderedField K] [FloorRing K]
    (sqrt : K → K) (r : GameRoom K) (now : Int) : GameRoom K × List (Event K) :=
  let deltaTime : K := ((now - r.lastTickTime : Int) : K) / 1000
  let r1 := { r with lastTickTime := now, tickCount := r.tickCount + 1 }
  if r1.players.length = 0 then (r1, [])
  else
    let step := r1.players.foldl
      (fun (acc : List (String × Player K) × List (Event K)) q =>
        let pr := GameRoom.processPlayerInput sqrt q.2 deltaTime now
        (acc.1 ++ [(q.1, pr.1)], acc.2 ++ pr.2.map (fun m => (q.1, m))))
      ([], [])
    let r2 := { r1 with players := step.1 }
    let stateMsg : Msg K := .STATE r2.tickCount now r2.roomId (step.1.map (fun q => q.2.serialize))
    (r2, step.2 ++ r2.broadcast stateMsg none)

/-- Reply of GameRoom.handleMineBlock. -/
inductive MineReply where
  | fail (reason : String)
  | ok (reward : Nat) (newBalance : Nat)
  deriving DecidableEq, Repr

/-- GameRoom.handleMineBlock: cooldown check, range check (recording a
MINE_RANGE violation on failure), mineable-set check, then delegation to the
store; on success stamp the cooldown, pay floor(value * lootMultiplier),
reply MINE_SUCCESS to the actor and broadcast BLOCK_MINED to the others.
Returns the updated room (with the updated player written back), the reply,
and the send events. -/
def GameRoom.handleMineBlock {K : Type} [LinearOrderedField K]
    (sqrt : K → K) (r : GameRoom K) (p : Player K)
    (blockX blockY blockZ : Int) (originalBlockType : Nat) (now : Int) :
    GameRoom K × MineReply × List (Event K) :=
  if now - p.lastMineTime < MINING_COOLDOWN then
    (r, .fail ("COOLDOWN"), [])
  else if p.canReachBlock sqrt blockX blockY blockZ = false then
    let pv := p.addViolation ("MINE_RANGE") now
    ({ r with players := mapSet r.players p.id pv.1 },
     .fail ("OUT_OF_RANGE"), pv.2.2.map (fun m => (p.id, m)))
  else if ¬ originalBlockType ∈ MINEABLE_BLOCKS then
    (r, .fail ("NOT_MINEABLE"), [])
  else
    let sres := r.mapStorage.mineBlock (blockX, blockY, blockZ) originalBlockType
    if sres.2.success = false then
      ({ r with mapStorage := sres.1 }, .fail sres.2.reason, [])
    else
      let p1 := { p with lastMineTime := now }
      let reward : Nat := (Int.floor ((sres.2.value : ℚ) * r.config.lootMultiplier)).toNat
      let pe := p1.addEarnings reward
      let r1 := { r with mapStorage := sres.1, players := mapSet r.players pe.1.id pe.1 }
      (r1, .ok reward pe.2,
       (pe.1.id, Msg.MINE_SUCCESS blockX blockY blockZ reward pe.2 sres.2.wasGold)
         :: r1.broadcast (.BLOCK_MINED pe.1.id blockX blockY blockZ AIR) (some pe.1.id))

-- ===========================================================================
-- RoomManager: the gatekeeper (src/unnamed/part_000)
-- ===========================================================================

/-- Result of RoomManager.handleLogin. -/
inductive LoginRes where
  | ok (playerId : String) (tier : ROOM_TIER) (roomId : String)
  | fail (reason : String)
  deriving DecidableEq, Repr

/-- Inbound protocol messages consumed by RoomManager.routeMessage. Optional
fields model possibly absent / null JS fields. -/
inductive InboundMsg (K : Type) where
  | LOGIN (wallet : Option String)
  | INPUT (x y z yaw : K)
  | MINE_BLOCK (blockX blockY blockZ : Int) (blockType : Option Nat)
  | PING (timestamp : Int)
  | CHAT (text : Option String)
  | UNKNOWN (mtype : String)
  deriving DecidableEq

/-- Result of RoomManager.routeMessage. -/
inductive RouteRes where
  | login (r : LoginRes)
  | mine (r : MineReply)
  | ok
  | fail (reason : String)
  deriving DecidableEq, Repr

/-- Gatekeeper state: rooms grouped by tier, the pending set, the
player-to-room index and counters. -/
structure RoomManager (K : Type) where
  freeRooms : List (String × GameRoom K)
  premiumRooms : List (String × GameRoom K)
  whaleRooms : List (String × GameRoom K)
  pendingPlayers : List (String × Player K)
  playerRooms : List (String × String)
  totalConnections : Nat
  totalAuthentications : Nat
  deriving DecidableEq

/-- Room collection of one tier. -/
def RoomManager.tierRooms {K : Type} (m : RoomManager K) : ROOM_TIER → List (String × GameRoom K)
  | .FREE => m.freeRooms
  | .PREMIUM => m.premiumRooms
  | .WHALE => m.whaleRooms

/-- Replace the room collection of one tier. -/
def RoomManager.setTierRooms {K : Type} (m : RoomManager K) :
    ROOM_TIER → List (String × GameRoom K) → RoomManager K
  | .FREE, l => { m with freeRooms := l }
  | .PREMIUM, l => { m with premiumRooms := l }
  | .WHALE, l => { m with whaleRooms := l }

/-- RoomManager.createRoom: make a room (generated id when none is given),
insert it into the tier collection and start its loop. -/
def RoomManager.createRoom {K : Type} [LinearOrderedField K]
    (m : RoomManager K) (tier : ROOM_TIER) (roomId : Option String) (now : Int) :
    RoomManager K × GameRoom K :=
  let id := roomId.getD (tier.lowerName ++ "-" ++ toString now)
  let room : GameRoom K := { newGameRoom id tier now with isRunning := true }
  (m.setTierRooms tier (mapSet (m.tierRooms tier) id room), room)

/-- Initial gatekeeper state: empty collections plus the three default rooms
(one per tier), as built by the constructor via initializeDefaultRooms. -/
def newRoomManager (K : Type) [LinearOrderedField K] (now : Int) : RoomManager K :=
  let m0 : RoomManager K :=
    { freeRooms := [], premiumRooms := [], whaleRooms := [],
      pendingPlayers := [], playerRooms := [],
      totalConnections := 0, totalAuthentications := 0 }
  let m1 := (m0.createRoom .FREE (some ("free-main")) now).1
  let m2 := (m1.createRoom .PREMIUM (some ("premium-main")) now).1
  (m2.createRoom .WHALE (some ("whale-main")) now).1

/-- RoomManager.handleConnection: wrap the channel in a new pending session
(its fresh uuid passed in as id) and greet it with CONNECTED. -/
def RoomManager.handleConnection {K : Type} [LinearOrderedField K]
    (m : RoomManager K) (id : String) (now : Int) :
    RoomManager K × Player K × List (Event K) :=
  let player : Player K := newPlayer id now
  ({ m with pendingPlayers := mapSet m.pendingPlayers id player,
            totalConnections := m.totalConnections + 1 },
   player,
   [(id, Msg.CONNECTED ("glitch-wars-v1"))])

/-- RoomManager.findRoom: search the tier collections in insertion order. -/
def RoomManager.findRoom {K : Type} (m : RoomManager K) (roomId : String) :
    Option (GameRoom K) :=
  match mapFind m.freeRooms roomId with
  | some r => some r
  | none =>
    match mapFind m.premiumRooms roomId with
    | some r => some r
    | none => mapFind m.whaleRooms roomId

/-- RoomManager.handleDisconnection: drop a pending session, or else remove
the session from its room via the player-to-room index. -/
def RoomManager.handleDisconnection {K : Type} (m : RoomManager K) (playerId : String) :
    RoomManager K × List (Event K) :=
  match mapFind m.pendingPlayers playerId with
  | some _ => ({ m with pendingPlayers := mapErase m.pendingPlayers playerId }, [])
  | none =>
    match mapFind m.playerRooms playerId with
    | none => (m, [])
    | some roomId =>
      match m.findRoom roomId with
      | none => ({ m with playerRooms := mapErase m.playerRooms playerId }, [])
      | some room =>
        let rr := room.removePlayer playerId
        let repl := fun (q : String × GameRoom K) => if q.1 = roomId then (roomId, rr.1) else q
        let m1 :=
          { m with
              freeRooms := m.freeRooms.map repl,
              premiumRooms := m.premiumRooms.map repl,
              whaleRooms := m.whaleRooms.map repl }
        ({ m1 with playerRooms := mapErase m1.playerRooms playerId }, rr.2)

/-- Write back a mutated room object under its id (in JS the map entry holds a
reference, so in-place mutation updates the entry holding that key). -/
def RoomManager.setRoom {K : Type} (m : RoomManager K) (roomId : String) (room : GameRoom K) :
    RoomManager K :=
  { m with
      freeRooms := m.freeRooms.map (fun q => if q.1 = roomId then (roomId, room) else q),
      premiumRooms := m.premiumRooms.map (fun q => if q.1 = roomId then (roomId, room) else q),
      whaleRooms := m.whaleRooms.map (fun q => if q.1 = roomId then (roomId, room) else q) }

/-- RoomManager.findAvailableRoom: first room of the tier with space, else
create a new room on demand. -/
def RoomManager.findAvailableRoom {K : Type} [LinearOrderedField K]
    (m : RoomManager K) (tier : ROOM_TIER) (now : Int) :
    RoomManager K × GameRoom K :=
  match (m.tierRooms tier).find? (fun q => q.2.players.length < q.2.config.maxPlayers) with
  | some q => (m, q.2)
  | none => m.createRoom tier none now

/-- RoomManager.handleLogin: wallet format check, external balance lookup
(outcome passed in as an Except), authentication, tier routing, removal from
the pending set and admission into the selected room; every failure path
replies LOGIN_FAILED with its reason code. -/
def RoomManager.handleLogin {K : Type} [LinearOrderedField K]
    (m : RoomManager K) (playerId : String) (wallet : String)
    (balanceResult : Except Unit K) (now : Int) :
    RoomManager K × LoginRes × List (Event K) :=
  match mapFind m.pendingPlayers playerId with
  | none => (m, .fail ("PLAYER_NOT_FOUND"), [])
  | some player =>
    if wallet = "" ∨ ¬ strStartsWith wallet ("0x") ∨ wallet.length ≠ 42 then
      (m, .fail ("INVALID_WALLET"), [(playerId, Msg.LOGIN_FAILED ("INVALID_WALLET"))])
    else
      match balanceResult with
      | .error _ =>
        (m, .fail ("SERVER_ERROR"), [(playerId, Msg.LOGIN_FAILED ("SERVER_ERROR"))])
      | .ok stakedBalance =>
        let player1 := player.authenticate wallet stakedBalance
        let targetTier := determineRoomTier stakedBalance
        let far := m.findAvailableRoom targetTier now
        let m2 := { far.1 with pendingPlayers := mapErase far.1.pendingPlayers playerId }
        let ja := far.2.addPlayer player1
        match ja.2.1 with
        | some reason =>
          (m2, .fail reason, [(playerId, Msg.LOGIN_FAILED reason)])
        | none =>
          let m3 := m2.setTierRooms targetTier (mapSet (m2.tierRooms targetTier) far.2.roomId ja.1)
          let m4 := { m3 with playerRooms := mapSet m3.playerRooms playerId far.2.roomId,
                              totalAuthentications := m3.totalAuthentications + 1 }
          (m4, .ok playerId targetTier far.2.roomId, ja.2.2)

/-- RoomManager.routeMessage: LOGIN goes to handleLogin regardless of state;
everything else needs a room assignment. MINE_BLOCK substitutes block type 0
for an absent, null or zero blockType field (the JS expression
message.blockType or-else 0). -/
def RoomManager.routeMessage {K : Type} [LinearOrderedField K]
    (sqrt : K → K) (m : RoomManager K) (playerId : String) (msg : InboundMsg K)
    (balanceResult : Except Unit K) (now : Int) :
    RoomManager K × RouteRes × List (Event K) :=
  match msg with
  | .LOGIN wallet =>
    let hl := m.handleLogin playerId (wallet.getD "") balanceResult now
    (hl.1, .login hl.2.1, hl.2.2)
  | other =>
    match mapFind m.playerRooms playerId with
    | none =>
      match mapFind m.pendingPlayers playerId with
      | some _ => (m, .fail ("NOT_IN_ROOM"), [(playerId, Msg.ERROR ("Must LOGIN first"))])
      | none => (m, .fail ("NOT_IN_ROOM"), [])
    | some roomId =>
      match m.findRoom roomId with
      | none =>
        match mapFind m.pendingPlayers playerId with
        | some _ => (m, .fail ("NOT_IN_ROOM"), [(playerId, Msg.ERROR ("Must LOGIN first"))])
        | none => (m, .fail ("NOT_IN_ROOM"), [])
      | some room =>
        match mapFind room.players playerId with
        | none => (m, .fail ("PLAYER_NOT_FOUND"), [])
        | some player =>
          match other with
          | .INPUT x y z yaw =>
            let buf : InputBuffer K := { x := x, y := y, z := z, yaw := yaw, timestamp := now }
            let player1 := { player with inputBuffer := some buf }
            (m.setRoom roomId ({ room with players := mapSet room.players playerId player1 }),
             .ok, [])
          | .MINE_BLOCK blockX blockY blockZ blockType =>
            let hm := GameRoom.handleMineBlock sqrt room player blockX blockY blockZ
              (jsOr blockType 0) now
            (m.setRoom roomId hm.1, .mine hm.2.1, hm.2.2)
          | .PING ts =>
            (m, .ok, [(playerId, Msg.PONG ts now room.tickCount)])
          | .CHAT text =>
            (m, .ok, room.broadcast (.CHAT player.id ((text.getD "").take 200) player.tier) none)
          | .LOGIN _ => (m, .fail ("UNKNOWN_TYPE"), [])
          | .UNKNOWN _ => (m, .fail ("UNKNOWN_TYPE"), [])

/-- RoomManager.cleanupEmptyRooms: periodic sweep; stop and delete every
non-default room for which shouldCleanup holds. -/
def RoomManager.cleanupEmptyRooms {K : Type} (m : RoomManager K) (now : Int) : RoomManager K :=
  let defaultRooms : List String := ["free-main", "premium-main", "whale-main"]
  let keep := fun (q : String × GameRoom K) =>
    ! (! defaultRooms.contains q.1 && q.2.shouldCleanup now)
  { m with
      freeRooms := m.freeRooms.filter keep,
      premiumRooms := m.premiumRooms.filter keep,
      whaleRooms := m.whaleRooms.filter keep }

/-- Fold a sequence of addViolation calls (one per timestamp), keeping the
player state and the escalation flag returned by the last call. -/
def addViolationSeq {K : Type} [LinearOrderedField K]
    (p : Player K) (times : List Int) : Player K × Bool :=
  times.foldl (fun acc t => let av := acc.1.addViolation ("X") t; (av.1, av.2.1)) (p, false)

/-- Concrete fixture for movement witnesses: a fresh player at the default
spawn (0, 6, 0) with one pending input buffered. -/
def demoPlayer {K : Type} [LinearOrderedField K] (ix iy iz : K) : Player K :=
  { newPlayer ("demo") 0 with
      inputBuffer := some { x := ix, y := iy, z := iz, yaw := 0, timestamp := 0 } }

/-- Concrete fixture: a running non-default room that has never had a member. -/
def demoIdleRoom : GameRoom ℚ :=
  { (newGameRoom ("r1") .FREE 0 : GameRoom ℚ) with isRunning := true }

/-- Concrete fixture: a gatekeeper holding only the idle room after one tick
at t = 1000000 (so over 16 minutes with zero members since creation). -/
def demoCleanupManager : RoomManager ℚ :=
  { freeRooms := [(("r1"), (GameRoom.tick (fun x => x) demoIdleRoom 1000000).1)],
    premiumRooms := [], whaleRooms := [], pendingPlayers := [], playerRooms := [],
    totalConnections := 0, totalAuthentications := 0 }

/-- Concrete fixture: an in-room player for the mining-route witness. -/
def demoMiner : Player ℚ :=
  { (newPlayer ("p1") 0 : Player ℚ) with roomId := some ("free-main") }

/-- Concrete fixture: a running default room holding the miner. -/
def demoRoom : GameRoom ℚ :=
  { (newGameRoom ("free-main") .FREE 0 : GameRoom ℚ) with
      isRunning := true, players := [(("p1"), demoMiner)] }

/-- Concrete fixture: a gatekeeper with the miner routed to its room. -/
def demoManager : RoomManager ℚ :=
  { freeRooms := [(("free-main"), demoRoom)], premiumRooms := [], whaleRooms := [],
    pendingPlayers := [], playerRooms := [(("p1"), ("free-main"))],
    totalConnections := 1, totalAuthentications := 1 }

/-- Concrete fixture: a fresh gatekeeper with one pending connection. -/
def demoPendingManager : RoomManager ℚ :=
  ((newRoomManager ℚ 0).handleConnection ("p1") 0).1

-- ===========================================================================
-- Helper lemmas on the JS Map model
-- ===========================================================================

theorem mapFind_mapSet_self {α β : Type} [DecidableEq α] (m : List (α × β)) (k : α) (v : β) :
    mapFind (mapSet m k v) k = some v := by
  induction m with
  | nil => simp [mapSet, mapFind]
  | cons h t ih =>
    by_cases hk : h.1 = k
    · simp [mapSet, mapFind, hk]
    · simp [mapSet, mapFind, hk, ih]

theorem mapFind_mapSet_ne {α β : Type} [DecidableEq α] (m : List (α × β)) (k k2 : α) (v : β)
    (h : k2 ≠ k) : mapFind (mapSet m k v) k2 = mapFind m k2 := by
  have hk : ¬ k = k2 := fun hh => h hh.symm
  induction m with
  | nil => simp [mapSet, mapFind, hk]
  | cons hd t ih =>
    obtain ⟨k0, v0⟩ := hd
    by_cases h1 : k0 = k
    · subst h1
      simp [mapSet, mapFind, hk]
    · by_cases h2 : k0 = k2
      · simp [mapSet, mapFind, h1, h2, h]
      · simp [mapSet, mapFind, h1, h2, ih]

theorem jsOr_some_self (n : Nat) : jsOr (some n) 0 = n := by
  cases n <;> rfl

-- ===========================================================================
-- C4: full functional specification of MapStorage.mineBlock
-- ===========================================================================

/-- C4: mineBlock rejects ALREADY_MINED when the override is already AIR,
otherwise rejects NOT_MINEABLE when the claimed type is outside the static
mineable set, and otherwise succeeds: the override becomes AIR, the
total-mined counter is incremented, the high-value counter is incremented
exactly when the claimed type is GOLD_LOOT, the store is marked dirty, and the
returned value is the static block-value table entry, defaulting to 1 for
mineable types absent from the table. -/
theorem C4_mineBlock_spec (s : MapStorage) (c : Coord) (t : Nat) :
    (mapFind s.blockChanges c = some AIR →
      (s.mineBlock c t).1 = s ∧
      (s.mineBlock c t).2 =
        { success := false, value := 0, wasGold := false, reason := "ALREADY_MINED" }) ∧
    (mapFind s.blockChanges c ≠ some AIR → t ∉ MINEABLE_BLOCKS →
      (s.mineBlock c t).1 = s ∧
      (s.mineBlock c t).2 =
        { success := false, value := 0, wasGold := false, reason := "NOT_MINEABLE" }) ∧
    (mapFind s.blockChanges c ≠ some AIR → t ∈ MINEABLE_BLOCKS →
      (s.mineBlock c t).1.getBlock c = some AIR ∧
      (s.mineBlock c t).1.totalBlocksMined = s.totalBlocksMined + 1 ∧
      (s.mineBlock c t).1.totalGoldMined =
        (if t = GOLD_LOOT then s.totalGoldMined + 1 else s.totalGoldMined) ∧
      (s.mineBlock c t).1.isDirty = true ∧
      (s.mineBlock c t).2.success = true ∧
      (s.mineBlock c t).2.wasGold = decide (t = GOLD_LOOT) ∧
      (s.mineBlock c t).2.value = (BLOCK_VALUE t).getD 1) := by
  refine ⟨fun hair => ?_, fun hair hmine => ?_, fun hair hmine => ?_⟩
  · simp [MapStorage.mineBlock, hair]
  · simp [MapStorage.mineBlock, hair, hmine]
  · have hval : jsOr (BLOCK_VALUE t) 1 = (BLOCK_VALUE t).getD 1 := by
      simp only [MINEABLE_BLOCKS, List.mem_cons, List.not_mem_nil, or_false] at hmine
      rcases hmine with h | h | h | h <;> subst h <;> decide
    simp [MapStorage.mineBlock, hair, hmine, MapStorage.getBlock,
      mapFind_mapSet_self, hval]

/-- Witness for C4 at a concrete input: mining gold at a fresh coordinate. -/
theorem C4_mineBlock_spec_witness :
    (mapFind emptyMapStorage.blockChanges (1, 2, 3) ≠ some AIR ∧ GOLD_LOOT ∈ MINEABLE_BLOCKS) ∧
    ((emptyMapStorage.mineBlock (1, 2, 3) GOLD_LOOT).1.getBlock (1, 2, 3) = some AIR ∧
      (emptyMapStorage.mineBlock (1, 2, 3) GOLD_LOOT).1.totalBlocksMined =
        emptyMapStorage.totalBlocksMined + 1 ∧
      (emptyMapStorage.mineBlock (1, 2, 3) GOLD_LOOT).1.totalGoldMined =
        (if GOLD_LOOT = GOLD_LOOT then emptyMapStorage.totalGoldMined + 1
          else emptyMapStorage.totalGoldMined) ∧
      (emptyMapStorage.mineBlock (1, 2, 3) GOLD_LOOT).1.isDirty = true ∧
      (emptyMapStorage.mineBlock (1, 2, 3) GOLD_LOOT).2.success = true ∧
      (emptyMapStorage.mineBlock (1, 2, 3) GOLD_LOOT).2.wasGold = decide (GOLD_LOOT = GOLD_LOOT) ∧
      (emptyMapStorage.mineBlock (1, 2, 3) GOLD_LOOT).2.value = (BLOCK_VALUE GOLD_LOOT).getD 1) :=
  ⟨⟨by decide, by decide⟩,
   (C4_mineBlock_spec emptyMapStorage (1, 2, 3) GOLD_LOOT).2.2 (by decide) (by decide)⟩

-- ===========================================================================
-- C3: one-way mining per coordinate
-- ===========================================================================

/-- C3 counterexample: the claim quantifies over all public operation
sequences including setOverride/setBlock, but setBlock can overwrite the AIR
override left by a successful mine, after which a later mine on the same
coordinate succeeds again. -/
theorem C3_counterexample :
    (emptyMapStorage.mineBlock (0, 0, 0) CONCRETE_FLOOR).2.success = true ∧
    (emptyMapStorage.mineBlock (0, 0, 0) CONCRETE_FLOOR).1.getBlock (0, 0, 0) = some AIR ∧
    ((applyOps emptyMapStorage
        [StoreOp.mine (0, 0, 0) CONCRETE_FLOOR,
         StoreOp.setBlock (0, 0, 0) CONCRETE_FLOOR]).mineBlock
        (0, 0, 0) CONCRETE_FLOOR).2.success = true := by
  decide

theorem mineBlock_success_air (s : MapStorage) (c : Coord) (t : Nat)
    (h : (s.mineBlock c t).2.success = true) :
    (s.mineBlock c t).1.getBlock c = some AIR := by
  by_cases h1 : mapFind s.blockChanges c = some AIR
  · simp [MapStorage.mineBlock, h1] at h
  · by_cases h2 : t ∈ MINEABLE_BLOCKS
    · simp [MapStorage.mineBlock, h1, h2, MapStorage.getBlock, mapFind_mapSet_self]
    · simp [MapStorage.mineBlock, h1, h2] at h

theorem applyOp_preserves_air (s : MapStorage) (c : Coord) (op : StoreOp)
    (hair : s.getBlock c = some AIR) (hop : op.writesCoord c = false) :
    (applyOp s op).getBlock c = some AIR := by
  unfold MapStorage.getBlock at hair ⊢
  cases op with
  | mine c2 t2 =>
    simp only [applyOp]
    by_cases h1 : mapFind s.blockChanges c2 = some AIR
    · simpa [MapStorage.mineBlock, h1] using hair
    · by_cases h2 : t2 ∈ MINEABLE_BLOCKS
      · by_cases hc : c2 = c
        · subst hc
          exact absurd hair h1
        · simp [MapStorage.mineBlock, h1, h2]
          rw [mapFind_mapSet_ne _ _ _ _ (fun hh => hc hh.symm)]
          exact hair
      · simpa [MapStorage.mineBlock, h1, h2] using hair
  | setBlock c2 t2 =>
    have hc : c2 ≠ c := by
      simpa [StoreOp.writesCoord] using hop
    simp only [applyOp, MapStorage.setBlock]
    rw [mapFind_mapSet_ne _ _ _ _ (fun hh => hc hh.symm)]
    exact hair
  | registerLoot c2 ty v now =>
    simpa [applyOp, MapStorage.registerLoot] using hair
  | collectLoot c2 =>
    simp only [applyOp, MapStorage.collectLoot]
    rcases hfind : mapFind s.lootSpawns c2 with _ | loot
    · exact hair
    · by_cases hcol : loot.collected <;> simp [hfind, hcol] <;> exact hair

theorem applyOps_preserves_air (s : MapStorage) (c : Coord) (ops : List StoreOp)
    (hair : s.getBlock c = some AIR) (hops : ∀ op ∈ ops, op.writesCoord c = false) :
    (applyOps s ops).getBlock c = some AIR := by
  induction ops generalizing s with
  | nil => simpa [applyOps] using hair
  | cons op rest ih =>
    have h1 : (applyOp s op).getBlock c = some AIR :=
      applyOp_preserves_air s c op hair (hops op (by simp))
    have := ih (applyOp s op) h1 (fun o ho => hops o (by simp [ho]))
    simpa [applyOps] using this

/-- C3 amended: once the override has been set to AIR by a successful mine, no
later mine on that coordinate ever succeeds again, provided no
setOverride/setBlock call targets that coordinate in between (the
counterexample shows the restriction is necessary); the later mine is
rejected with ALREADY_MINED. -/
theorem C3_one_way_mining_amended (s : MapStorage) (c : Coord) (t t2 : Nat)
    (ops : List StoreOp)
    (hmine : (s.mineBlock c t).2.success = true)
    (hops : ∀ op ∈ ops, op.writesCoord c = false) :
    ((applyOps (s.mineBlock c t).1 ops).mineBlock c t2).2 =
      { success := false, value := 0, wasGold := false, reason := "ALREADY_MINED" } ∧
    ((applyOps (s.mineBlock c t).1 ops).mineBlock c t2).1 =
      applyOps (s.mineBlock c t).1 ops := by
  have hair := mineBlock_success_air s c t hmine
  have hkeep := applyOps_preserves_air (s.mineBlock c t).1 c ops hair hops
  unfold MapStorage.getBlock at hkeep
  generalize hA : applyOps (s.mineBlock c t).1 ops = A at hkeep ⊢
  constructor <;> simp [MapStorage.mineBlock, hkeep]

/-- Witness for C3 amended: mine gold, register loot elsewhere, mine a
different coordinate, then try the original coordinate again. -/
theorem C3_one_way_mining_amended_witness :
    (emptyMapStorage.mineBlock (1, 2, 3) GOLD_LOOT).2.success = true ∧
    (∀ op ∈ [StoreOp.registerLoot (1, 2, 3) 1 5 0, StoreOp.mine (4, 5, 6) CONCRETE_WALL],
      op.writesCoord (1, 2, 3) = false) ∧
    ((applyOps (emptyMapStorage.mineBlock (1, 2, 3) GOLD_LOOT).1
        [StoreOp.registerLoot (1, 2, 3) 1 5 0, StoreOp.mine (4, 5, 6) CONCRETE_WALL]).mineBlock
        (1, 2, 3) GOLD_LOOT).2 =
      { success := false, value := 0, wasGold := false, reason := "ALREADY_MINED" } :=
  ⟨by decide, by decide,
   (C3_one_way_mining_amended emptyMapStorage (1, 2, 3) GOLD_LOOT GOLD_LOOT
      [StoreOp.registerLoot (1, 2, 3) 1 5 0, StoreOp.mine (4, 5, 6) CONCRETE_WALL]
      (by decide) (by decide)).1⟩

-- ===========================================================================
-- C9: persistence round-trip and all-or-nothing version gate
-- ===========================================================================

/-- C9: restoring the serialization of any store into a fresh store reproduces
the override map, the loot map and both aggregate counters; restoring a
serialization with an unrecognized version tag leaves the fresh store entirely
empty. -/
theorem C9_persistence_roundtrip (s : MapStorage) (save : MapSave) :
    ((emptyMapStorage.fromJSON s.toJSON).blockChanges = s.blockChanges ∧
     (emptyMapStorage.fromJSON s.toJSON).lootSpawns = s.lootSpawns ∧
     (emptyMapStorage.fromJSON s.toJSON).totalBlocksMined = s.totalBlocksMined ∧
     (emptyMapStorage.fromJSON s.toJSON).totalGoldMined = s.totalGoldMined) ∧
    (save.version ≠ 1 → emptyMapStorage.fromJSON save = emptyMapStorage) := by
  constructor
  · simp [MapStorage.fromJSON, MapStorage.toJSON, jsOr_some_self]
  · intro hv
    simp [MapStorage.fromJSON, hv]

/-- Witness for C9: a store with two overrides and one loot entry
round-trips, and a version-2 record restores to the empty store. -/
theorem C9_persistence_roundtrip_witness :
    ((emptyMapStorage.fromJSON
        (MapStorage.toJSON
          { blockChanges := [((1, 2, 3), 0), ((4, 5, 6), 7)],
            lootSpawns := [((9, 9, 9), { type := 6, value := 50, spawnTime := 17, collected := false })],
            totalBlocksMined := 2, totalGoldMined := 1, isDirty := true })).totalBlocksMined = 2) ∧
    ((2 : Nat) ≠ 1 ∧
      emptyMapStorage.fromJSON
        { version := 2, totalBlocksMined := 5, totalGoldMined := 3, changedBlocks := 1,
          blockChanges := [((1, 2, 3), 0)], lootSpawns := [] } = emptyMapStorage) :=
  ⟨by
    have h := (C9_persistence_roundtrip
      { blockChanges := [((1, 2, 3), 0), ((4, 5, 6), 7)],
        lootSpawns := [((9, 9, 9), { type := 6, value := 50, spawnTime := 17, collected := false })],
        totalBlocksMined := 2, totalGoldMined := 1, isDirty := true }
      { version := 2, totalBlocksMined := 5, totalGoldMined := 3, changedBlocks := 1,
        blockChanges := [((1, 2, 3), 0)], lootSpawns := [] }).1.2.2.1
    simpa using h,
   ⟨by decide,
    (C9_persistence_roundtrip emptyMapStorage
      { version := 2, totalBlocksMined := 5, totalGoldMined := 3, changedBlocks := 1,
        blockChanges := [((1, 2, 3), 0)], lootSpawns := [] }).2 (by decide)⟩⟩

-- ===========================================================================
-- C5: tier monotonicity and shared thresholds
-- ===========================================================================

/-- C5: the tier derived from a stake is monotonically non-decreasing in the
stake, with exactly the two ascending thresholds 100 and 1000 (stakes below
100 give SCAVENGER, stakes in [100, 1000) give OPERATOR, stakes at or above
1000 give WHALE; in particular 99, 100, 999 and 1000 land as expected), and
the room-tier routing of the gatekeeper agrees with the session tier
derivation at every stake (same thresholds). -/
theorem C5_tier_monotonicity {K : Type} [LinearOrderedField K] :
    (∀ s t : K, s ≤ t → tierRank (calculateTier s) ≤ tierRank (calculateTier t)) ∧
    (∀ s : K, s < (TIER_THRESHOLDS_OPERATOR : K) → calculateTier s = .SCAVENGER) ∧
    (∀ s : K, (TIER_THRESHOLDS_OPERATOR : K) ≤ s → s < (TIER_THRESHOLDS_WHALE : K) →
      calculateTier s = .OPERATOR) ∧
    (∀ s : K, (TIER_THRESHOLDS_WHALE : K) ≤ s → calculateTier s = .WHALE) ∧
    calculateTier (99 : K) = .SCAVENGER ∧
    calculateTier (100 : K) = .OPERATOR ∧
    calculateTier (999 : K) = .OPERATOR ∧
    calculateTier (1000 : K) = .WHALE ∧
    (∀ s : K, determineRoomTier s = roomTierForPlayerTier (calculateTier s)) := by
  have hO : (TIER_THRESHOLDS_OPERATOR : K) = (100 : K) := by
    norm_num [TIER_THRESHOLDS_OPERATOR]
  have hW : (TIER_THRESHOLDS_WHALE : K) = (1000 : K) := by
    norm_num [TIER_THRESHOLDS_WHALE]
  have hlow : ∀ s : K, s < (TIER_THRESHOLDS_OPERATOR : K) → calculateTier s = .SCAVENGER := by
    intro s hs
    rw [hO] at hs
    unfold calculateTier
    rw [hO, hW, if_neg (by linarith), if_neg (by linarith)]
  have hmid : ∀ s : K, (TIER_THRESHOLDS_OPERATOR : K) ≤ s →
      s < (TIER_THRESHOLDS_WHALE : K) → calculateTier s = .OPERATOR := by
    intro s hs1 hs2
    rw [hO] at hs1
    rw [hW] at hs2
    unfold calculateTier
    rw [hO, hW, if_neg (by linarith), if_pos (by linarith)]
  have hhigh : ∀ s : K, (TIER_THRESHOLDS_WHALE : K) ≤ s → calculateTier s = .WHALE := by
    intro s hs
    rw [hW] at hs
    unfold calculateTier
    rw [hO, hW, if_pos (by linarith)]
  refine ⟨?_, hlow, hmid, hhigh, ?_, ?_, ?_, ?_, ?_⟩
  · intro s t hst
    unfold calculateTier
    rw [hO, hW]
    split_ifs <;> simp [tierRank] <;> linarith
  · exact hlow 99 (by rw [hO]; norm_num)
  · exact hmid 100 (by rw [hO]) (by rw [hW]; norm_num)
  · exact hmid 999 (by rw [hO]; norm_num) (by rw [hW]; norm_num)
  · exact hhigh 1000 (by rw [hW])
  · intro s
    unfold determineRoomTier calculateTier roomTierForPlayerTier
    split_ifs <;> rfl

/-- Witness for C5 at concrete rational stakes. -/
theorem C5_tier_monotonicity_witness :
    ((50 : ℚ) ≤ 500 ∧ tierRank (calculateTier (50 : ℚ)) ≤ tierRank (calculateTier (500 : ℚ))) ∧
    ((50 : ℚ) < (TIER_THRESHOLDS_OPERATOR : ℚ) ∧ calculateTier (50 : ℚ) = .SCAVENGER) ∧
    calculateTier (99 : ℚ) = .SCAVENGER ∧
    calculateTier (100 : ℚ) = .OPERATOR ∧
    calculateTier (999 : ℚ) = .OPERATOR ∧
    calculateTier (1000 : ℚ) = .WHALE ∧
    determineRoomTier (5000 : ℚ) = roomTierForPlayerTier (calculateTier (5000 : ℚ)) :=
  ⟨⟨by norm_num, (C5_tier_monotonicity (K := ℚ)).1 50 500 (by norm_num)⟩,
   ⟨by norm_num [TIER_THRESHOLDS_OPERATOR],
    (C5_tier_monotonicity (K := ℚ)).2.1 50 (by norm_num [TIER_THRESHOLDS_OPERATOR])⟩,
   (C5_tier_monotonicity (K := ℚ)).2.2.2.2.1,
   (C5_tier_monotonicity (K := ℚ)).2.2.2.2.2.1,
   (C5_tier_monotonicity (K := ℚ)).2.2.2.2.2.2.1,
   (C5_tier_monotonicity (K := ℚ)).2.2.2.2.2.2.2.1,
   (C5_tier_monotonicity (K := ℚ)).2.2.2.2.2.2.2.2 5000⟩

-- ===========================================================================
-- C8: violation escalation with decay
-- ===========================================================================

/-- C8: addViolation first resets the counter to zero when more than the
30 s decay window has elapsed since the previous violation, then increments
it and stamps the violation time, and returns true (forcing disconnect)
exactly when the counter has reached the threshold of 5; in particular five
violations with consecutive gaps inside the window escalate at the fifth,
while a violation, a gap exceeding the window, and three more violations
never reach the threshold. -/
theorem C8_violation_escalation {K : Type} [LinearOrderedField K] :
    (∀ (p : Player K) (vt : String) (now : Int),
      (p.addViolation vt now).1.violations =
        (if now - p.lastViolationTime > 30000 then 0 else p.violations) + 1 ∧
      (p.addViolation vt now).1.lastViolationTime = now ∧
      ((p.addViolation vt now).2.1 = true ↔ 5 ≤ (p.addViolation vt now).1.violations)) ∧
    (∀ (p : Player K) (t1 t2 t3 t4 t5 : Int), p.violations = 0 →
      t2 - t1 ≤ 30000 → t3 - t2 ≤ 30000 → t4 - t3 ≤ 30000 → t5 - t4 ≤ 30000 →
      (addViolationSeq p [t1, t2, t3, t4, t5]).2 = true ∧
      (addViolationSeq p [t1, t2, t3, t4, t5]).1.violations = 5) ∧
    (∀ (p : Player K) (t1 t2 t3 t4 : Int), p.violations = 0 →
      t2 - t1 > 30000 → t3 - t2 ≤ 30000 → t4 - t3 ≤ 30000 →
      (addViolationSeq p [t1, t2, t3, t4]).2 = false ∧
      (addViolationSeq p [t1, t2, t3, t4]).1.violations = 3) := by
  refine ⟨fun p vt now => ?_, fun p t1 t2 t3 t4 t5 hv h2 h3 h4 h5 => ?_,
    fun p t1 t2 t3 t4 hv h2 h3 h4 => ?_⟩
  · by_cases hr : 30000 < now - p.lastViolationTime
    · refine ⟨?_, ?_, ?_⟩ <;> simp [Player.addViolation, hr]
    · refine ⟨?_, ?_, ?_⟩ <;> simp [Player.addViolation, hr]
      · split_ifs <;> simp
      · split_ifs <;> simp
      · split_ifs with h <;> simp [h]
  · have h2' : ¬ (30000 : Int) < t2 - t1 := not_lt.mpr h2
    have h3' : ¬ (30000 : Int) < t3 - t2 := not_lt.mpr h3
    have h4' : ¬ (30000 : Int) < t4 - t3 := not_lt.mpr h4
    have h5' : ¬ (30000 : Int) < t5 - t4 := not_lt.mpr h5
    by_cases h1 : (30000 : Int) < t1 - p.lastViolationTime <;>
      simp [addViolationSeq, List.foldl, Player.addViolation, hv, h1, h2', h3', h4', h5']
  · have h2' : (30000 : Int) < t2 - t1 := h2
    have h3' : ¬ (30000 : Int) < t3 - t2 := not_lt.mpr h3
    have h4' : ¬ (30000 : Int) < t4 - t3 := not_lt.mpr h4
    by_cases h1 : (30000 : Int) < t1 - p.lastViolationTime <;>
      simp [addViolationSeq, List.foldl, Player.addViolation, hv, h1, h2', h3', h4']

/-- Witness for C8 at concrete times on a fresh player. -/
theorem C8_violation_escalation_witness :
    ((newPlayer (K := ℚ) ("p") 0).addViolation ("TELEPORT") 40000).1.violations =
      (if (40000 : Int) - (newPlayer (K := ℚ) ("p") 0).lastViolationTime > 30000 then 0
        else (newPlayer (K := ℚ) ("p") 0).violations) + 1 ∧
    ((newPlayer (K := ℚ) ("p") 0).violations = 0 ∧
      (addViolationSeq (newPlayer (K := ℚ) ("p") 0) [0, 100, 200, 300, 400]).2 = true) ∧
    ((addViolationSeq (newPlayer (K := ℚ) ("p") 0) [0, 40000, 40100, 40200]).2 = false ∧
      (addViolationSeq (newPlayer (K := ℚ) ("p") 0) [0, 40000, 40100, 40200]).1.violations = 3) :=
  ⟨((C8_violation_escalation (K := ℚ)).1 (newPlayer ("p") 0) ("TELEPORT") 40000).1,
   ⟨by decide,
    ((C8_violation_escalation (K := ℚ)).2.1 (newPlayer ("p") 0) 0 100 200 300 400
      (by decide) (by decide) (by decide) (by decide) (by decide)).1⟩,
   ⟨((C8_violation_escalation (K := ℚ)).2.2 (newPlayer ("p") 0) 0 40000 40100 40200
      (by decide) (by decide) (by decide) (by decide)).1,
    ((C8_violation_escalation (K := ℚ)).2.2 (newPlayer ("p") 0) 0 40000 40100 40200
      (by decide) (by decide) (by decide) (by decide)).2⟩⟩

-- ===========================================================================
-- C6: speed clamp applies exactly the capped displacement
-- ===========================================================================

/-- C6: when the requested displacement exceeds maxSpeed * elapsed * 2 but
not the hard teleport threshold, movement validation applies a clamped
position whose displacement is a nonnegative scaling of the requested
displacement (same direction) and whose Euclidean magnitude equals exactly
MAX_SPEED * elapsed * 2, never the raw requested distance. -/
theorem C6_speed_clamp_exact (p : Player ℝ) (input : InputBuffer ℝ) (dt : ℝ) (now : Int)
    (hbuf : p.inputBuffer = some input)
    (hdt : 0 ≤ dt)
    (hspeed : MAX_SPEED ℝ * dt * 2 <
      Real.sqrt ((input.x - p.x) * (input.x - p.x) + (input.y - p.y) * (input.y - p.y) +
        (input.z - p.z) * (input.z - p.z)))
    (htel : ¬ MAX_TELEPORT ℝ <
      Real.sqrt ((input.x - p.x) * (input.x - p.x) + (input.y - p.y) * (input.y - p.y) +
        (input.z - p.z) * (input.z - p.z))) :
    (∃ r : ℝ, 0 ≤ r ∧
      (GameRoom.processPlayerInput Real.sqrt p dt now).1.x - p.x = (input.x - p.x) * r ∧
      (GameRoom.processPlayerInput Real.sqrt p dt now).1.y - p.y = (input.y - p.y) * r ∧
      (GameRoom.processPlayerInput Real.sqrt p dt now).1.z - p.z = (input.z - p.z) * r) ∧
    Real.sqrt
      (((GameRoom.processPlayerInput Real.sqrt p dt now).1.x - p.x) *
          ((GameRoom.processPlayerInput Real.sqrt p dt now).1.x - p.x) +
        ((GameRoom.processPlayerInput Real.sqrt p dt now).1.y - p.y) *
          ((GameRoom.processPlayerInput Real.sqrt p dt now).1.y - p.y) +
        ((GameRoom.processPlayerInput Real.sqrt p dt now).1.z - p.z) *
          ((GameRoom.processPlayerInput Real.sqrt p dt now).1.z - p.z)) =
      MAX_SPEED ℝ * dt * 2 := by
  have hma : (0:ℝ) ≤ MAX_SPEED ℝ * dt * 2 := by
    unfold MAX_SPEED
    linarith
  set dx := input.x - p.x with hdx
  set dy := input.y - p.y with hdy
  set dz := input.z - p.z with hdz
  set dist := Real.sqrt (dx * dx + dy * dy + dz * dz) with hdist
  have hdistpos : 0 < dist := lt_of_le_of_lt hma hspeed
  set r0 := MAX_SPEED ℝ * dt * 2 / dist with hr0def
  have hr0 : 0 ≤ r0 := div_nonneg hma hdistpos.le
  have hres : (GameRoom.processPlayerInput Real.sqrt p dt now).1 =
      { (p.updatePosition (p.x + dx * r0) (p.y + dy * r0) (p.z + dz * r0) input.yaw now) with
        inputBuffer := none } := by
    simp only [GameRoom.processPlayerInput, hbuf]
    rw [if_neg htel, if_pos hspeed]
  have hs2 : (0:ℝ) ≤ dx * dx + dy * dy + dz * dz :=
    add_nonneg (add_nonneg (mul_self_nonneg dx) (mul_self_nonneg dy)) (mul_self_nonneg dz)
  have hmag : Real.sqrt ((dx * r0) * (dx * r0) + (dy * r0) * (dy * r0) + (dz * r0) * (dz * r0)) =
      MAX_SPEED ℝ * dt * 2 := by
    rw [show (dx * r0) * (dx * r0) + (dy * r0) * (dy * r0) + (dz * r0) * (dz * r0) =
      (dx * dx + dy * dy + dz * dz) * (r0 * r0) by ring]
    rw [Real.sqrt_mul hs2, Real.sqrt_mul_self hr0, ← hdist, hr0def]
    rw [mul_comm]
    exact div_mul_cancel₀ _ (ne_of_gt hdistpos)
  constructor
  · refine ⟨r0, hr0, ?_, ?_, ?_⟩ <;> rw [hres] <;> simp [Player.updatePosition]
  · rw [hres]
    simp only [Player.updatePosition]
    rw [show (p.x + dx * r0 - p.x) = dx * r0 by ring, show (p.y + dy * r0 - p.y) = dy * r0 by ring,
      show (p.z + dz * r0 - p.z) = dz * r0 by ring]
    exact hmag

/-- Witness for C6: requested displacement of length 9 with elapsed 0.1 s, so
the cap is 15 * 0.1 * 2 = 3 and the clamp applies magnitude exactly 3. -/
theorem C6_speed_clamp_exact_witness :
    ((0:ℝ) ≤ 1/10) ∧
    (MAX_SPEED ℝ * (1/10) * 2 <
      Real.sqrt (((9:ℝ) - 0) * (9 - 0) + ((6:ℝ) - 6) * (6 - 6) + ((0:ℝ) - 0) * (0 - 0))) ∧
    (¬ MAX_TELEPORT ℝ <
      Real.sqrt (((9:ℝ) - 0) * (9 - 0) + ((6:ℝ) - 6) * (6 - 6) + ((0:ℝ) - 0) * (0 - 0))) ∧
    Real.sqrt
      (((GameRoom.processPlayerInput Real.sqrt (demoPlayer 9 6 0) (1/10) 0).1.x -
            (demoPlayer 9 6 0).x) *
          ((GameRoom.processPlayerInput Real.sqrt (demoPlayer 9 6 0) (1/10) 0).1.x -
            (demoPlayer 9 6 0).x) +
        ((GameRoom.processPlayerInput Real.sqrt (demoPlayer 9 6 0) (1/10) 0).1.y -
            (demoPlayer 9 6 0).y) *
          ((GameRoom.processPlayerInput Real.sqrt (demoPlayer 9 6 0) (1/10) 0).1.y -
            (demoPlayer 9 6 0).y) +
        ((GameRoom.processPlayerInput Real.sqrt (demoPlayer 9 6 0) (1/10) 0).1.z -
            (demoPlayer 9 6 0).z) *
          ((GameRoom.processPlayerInput Real.sqrt (demoPlayer 9 6 0) (1/10) 0).1.z -
            (demoPlayer 9 6 0).z)) =
      MAX_SPEED ℝ * (1/10) * 2 := by
  have h9 : Real.sqrt (((9:ℝ) - 0) * (9 - 0) + ((6:ℝ) - 6) * (6 - 6) + ((0:ℝ) - 0) * (0 - 0)) =
      9 := by
    rw [show ((9:ℝ) - 0) * (9 - 0) + ((6:ℝ) - 6) * (6 - 6) + ((0:ℝ) - 0) * (0 - 0) = 9^2 by
      norm_num]
    exact Real.sqrt_sq (by norm_num)
  have hdt : (0:ℝ) ≤ 1/10 := by norm_num
  have hspeed : MAX_SPEED ℝ * (1/10) * 2 <
      Real.sqrt (((9:ℝ) - 0) * (9 - 0) + ((6:ℝ) - 6) * (6 - 6) + ((0:ℝ) - 0) * (0 - 0)) := by
    rw [h9]
    norm_num [MAX_SPEED]
  have htel : ¬ MAX_TELEPORT ℝ <
      Real.sqrt (((9:ℝ) - 0) * (9 - 0) + ((6:ℝ) - 6) * (6 - 6) + ((0:ℝ) - 0) * (0 - 0)) := by
    rw [h9]
    norm_num [MAX_TELEPORT]
  exact ⟨hdt, hspeed, htel,
    (C6_speed_clamp_exact (demoPlayer 9 6 0)
      { x := 9, y := 6, z := 0, yaw := 0, timestamp := 0 } (1/10) 0 rfl hdt hspeed htel).2⟩

-- ===========================================================================
-- C7: teleport rejection is a no-op with exactly one violation
-- ===========================================================================

/-- C7: a requested displacement beyond the teleport threshold leaves the
stored position and yaw unchanged, applies exactly one addViolation (counter
formula and timestamp of a single TELEPORT violation), clears the pending
input buffer, and sends exactly one POSITION_CORRECTION carrying the last
authoritative position (preceded only by a KICKED message when that single
violation escalates). -/
theorem C7_teleport_noop (p : Player ℝ) (input : InputBuffer ℝ) (dt : ℝ) (now : Int)
    (hbuf : p.inputBuffer = some input)
    (htel : MAX_TELEPORT ℝ <
      Real.sqrt ((input.x - p.x) * (input.x - p.x) + (input.y - p.y) * (input.y - p.y) +
        (input.z - p.z) * (input.z - p.z))) :
    (GameRoom.processPlayerInput Real.sqrt p dt now).1.x = p.x ∧
    (GameRoom.processPlayerInput Real.sqrt p dt now).1.y = p.y ∧
    (GameRoom.processPlayerInput Real.sqrt p dt now).1.z = p.z ∧
    (GameRoom.processPlayerInput Real.sqrt p dt now).1.yaw = p.yaw ∧
    (GameRoom.processPlayerInput Real.sqrt p dt now).1.inputBuffer = none ∧
    (GameRoom.processPlayerInput Real.sqrt p dt now).1.violations =
      (if now - p.lastViolationTime > 30000 then 0 else p.violations) + 1 ∧
    (GameRoom.processPlayerInput Real.sqrt p dt now).1.lastViolationTime = now ∧
    (GameRoom.processPlayerInput Real.sqrt p dt now).2 =
      (if 5 ≤ (if now - p.lastViolationTime > 30000 then 0 else p.violations) + 1
        then [Msg.KICKED ("Too many violations")] else [])
      ++ [Msg.POSITION_CORRECTION p.x p.y p.z ("TELEPORT_DETECTED")] := by
  have hres : GameRoom.processPlayerInput Real.sqrt p dt now =
      ({ (p.addViolation ("TELEPORT") now).1 with inputBuffer := none },
        (p.addViolation ("TELEPORT") now).2.2 ++
          [Msg.POSITION_CORRECTION p.x p.y p.z ("TELEPORT_DETECTED")]) := by
    simp only [GameRoom.processPlayerInput, hbuf]
    rw [if_pos htel]
  rw [hres]
  by_cases hr : 30000 < now - p.lastViolationTime
  · refine ⟨?_, ?_, ?_, ?_, ?_, ?_, ?_, ?_⟩ <;> simp [Player.addViolation, hr] <;>
      split_ifs <;> simp
  · refine ⟨?_, ?_, ?_, ?_, ?_, ?_, ?_, ?_⟩ <;> simp [Player.addViolation, hr] <;>
      split_ifs <;> simp

/-- Witness for C7: requested displacement of length 11, beyond the teleport
threshold of 10; the stored x coordinate is unchanged. -/
theorem C7_teleport_noop_witness :
    (MAX_TELEPORT ℝ <
      Real.sqrt (((11:ℝ) - 0) * (11 - 0) + ((6:ℝ) - 6) * (6 - 6) + ((0:ℝ) - 0) * (0 - 0))) ∧
    (GameRoom.processPlayerInput Real.sqrt (demoPlayer 11 6 0) (1/10) 99).1.x =
      (demoPlayer 11 6 0).x ∧
    (GameRoom.processPlayerInput Real.sqrt (demoPlayer 11 6 0) (1/10) 99).1.violations =
      (if (99:Int) - (demoPlayer (11:ℝ) 6 0).lastViolationTime > 30000 then 0
        else (demoPlayer (11:ℝ) 6 0).violations) + 1 := by
  have h11 : Real.sqrt (((11:ℝ) - 0) * (11 - 0) + ((6:ℝ) - 6) * (6 - 6) + ((0:ℝ) - 0) * (0 - 0)) =
      11 := by
    rw [show ((11:ℝ) - 0) * (11 - 0) + ((6:ℝ) - 6) * (6 - 6) + ((0:ℝ) - 0) * (0 - 0) = 11^2 by
      norm_num]
    exact Real.sqrt_sq (by norm_num)
  have htel : MAX_TELEPORT ℝ <
      Real.sqrt (((11:ℝ) - 0) * (11 - 0) + ((6:ℝ) - 6) * (6 - 6) + ((0:ℝ) - 0) * (0 - 0)) := by
    rw [h11]
    norm_num [MAX_TELEPORT]
  have h := C7_teleport_noop (demoPlayer 11 6 0)
    { x := 11, y := 6, z := 0, yaw := 0, timestamp := 0 } (1/10) 99 rfl htel
  exact ⟨htel, h.1, h.2.2.2.2.2.1⟩

-- ===========================================================================
-- C2: idle-room reclamation (the code never reclaims a running empty room)
-- ===========================================================================

/-- C2 refuted on the code: tick refreshes lastTickTime before the zero-member
skip, so immediately after any tick of a running room — no matter how long the
room has been empty — shouldCleanup is false at every sweep time within five
minutes of that tick, and the periodic sweep keeps the room in its tier
collection. Since a running room ticks every 33 ms, the sweep always observes
a fresh lastTickTime and never reclaims a running empty room. -/
theorem C2_idle_running_room_never_reclaimed {K : Type} [LinearOrderedField K] [FloorRing K]
    (sqrt : K → K) (r : GameRoom K) (t tSweep : Int)
    (hempty : r.players = [])
    (hwin : tSweep ≤ t + 5 * 60 * 1000) :
    (GameRoom.tick sqrt r t).1.shouldCleanup tSweep = false ∧
    (∀ (m : RoomManager K) (tier : ROOM_TIER) (rid : String),
      (rid, (GameRoom.tick sqrt r t).1) ∈ m.tierRooms tier →
      (rid, (GameRoom.tick sqrt r t).1) ∈ (m.cleanupEmptyRooms tSweep).tierRooms tier) := by
  have htick : (GameRoom.tick sqrt r t).1 =
      { r with lastTickTime := t, tickCount := r.tickCount + 1 } := by
    simp [GameRoom.tick, hempty]
  have hsc : (GameRoom.tick sqrt r t).1.shouldCleanup tSweep = false := by
    rw [htick]
    simp [GameRoom.shouldCleanup, hempty]
    omega
  refine ⟨hsc, fun m tier rid hmem => ?_⟩
  cases tier <;>
    · simp only [RoomManager.cleanupEmptyRooms, RoomManager.tierRooms] at hmem ⊢
      rw [List.mem_filter]
      exact ⟨hmem, by simp [hsc]⟩

/-- Witness for C2: a room created at t = 0, empty ever since, ticking at
t = 1000000 (16+ minutes empty); at the sweep 33 ms later it is still not
eligible and the sweep keeps it. -/
theorem C2_idle_running_room_never_reclaimed_witness :
    demoIdleRoom.players = [] ∧
    ((1000033 : Int) ≤ 1000000 + 5 * 60 * 1000) ∧
    (GameRoom.tick (fun x => x) demoIdleRoom 1000000).1.shouldCleanup 1000033 = false ∧
    (("r1"), (GameRoom.tick (fun x => x) demoIdleRoom 1000000).1) ∈
      (demoCleanupManager.cleanupEmptyRooms 1000033).tierRooms .FREE := by
  have h := C2_idle_running_room_never_reclaimed (fun x => x) demoIdleRoom 1000000 1000033
    (by decide) (by decide)
  exact ⟨by decide, by decide, h.1, h.2 demoCleanupManager .FREE ("r1") (by decide)⟩

-- ===========================================================================
-- C1: login failure paths reply LOGIN_FAILED and leave the session pending
-- ===========================================================================

theorem findAvailableRoom_has_space {K : Type} [LinearOrderedField K]
    (m : RoomManager K) (tier : ROOM_TIER) (now : Int) :
    ((m.findAvailableRoom tier now).2).players.length <
      ((m.findAvailableRoom tier now).2).config.maxPlayers := by
  unfold RoomManager.findAvailableRoom
  rcases hfind : (m.tierRooms tier).find?
      (fun q => q.2.players.length < q.2.config.maxPlayers) with _ | q
  · simp only [hfind]
    cases tier <;>
      simp [RoomManager.createRoom, newGameRoom, GameRoom.config, TIER_CONFIG]
  · have hq := List.find?_some hfind
    simp only [decide_eq_true_eq] at hq
    simpa [hfind] using hq

/-- C1: whenever handleLogin fails for a pending session with one of the
reasons INVALID_WALLET (bad wallet format), SERVER_ERROR (balance-lookup
error) or ROOM_FULL (admission rejected), a LOGIN_FAILED message carrying that
reason is sent to the session and the session is still present in the pending
set afterwards, so the login is retryable. (For the first two reasons the
manager state is untouched; the ROOM_FULL case cannot actually arise, because
findAvailableRoom always returns a room with space — creating a fresh one if
every room of the tier is full — so addPlayer never rejects during login.) -/
theorem C1_login_failure_retryable {K : Type} [LinearOrderedField K]
    (m : RoomManager K) (playerId wallet : String) (balanceResult : Except Unit K) (now : Int)
    (player : Player K)
    (hpending : mapFind m.pendingPlayers playerId = some player)
    (reason : String)
    (hreason : reason = "INVALID_WALLET" ∨ reason = "SERVER_ERROR" ∨ reason = "ROOM_FULL")
    (hfail : (m.handleLogin playerId wallet balanceResult now).2.1 = .fail reason) :
    (playerId, Msg.LOGIN_FAILED reason) ∈ (m.handleLogin playerId wallet balanceResult now).2.2 ∧
    mapFind ((m.handleLogin playerId wallet balanceResult now).1).pendingPlayers playerId =
      some player := by
  unfold RoomManager.handleLogin at hfail ⊢
  simp only [hpending] at hfail ⊢
  by_cases hw : wallet = "" ∨ ¬ strStartsWith wallet ("0x") ∨ wallet.length ≠ 42
  · rw [if_pos hw] at hfail ⊢
    simp at hfail
    simp [hfail, hpending]
  · rw [if_neg hw] at hfail ⊢
    cases balanceResult with
    | error e =>
      simp at hfail
      simp [hfail, hpending]
    | ok stake =>
      exfalso
      have hspace := findAvailableRoom_has_space m (determineRoomTier stake) now
      simp only [GameRoom.addPlayer, if_neg (not_le.mpr hspace)] at hfail
      simp at hfail

/-- Witness for C1: a pending session supplies a malformed wallet; the reply
is LOGIN_FAILED INVALID_WALLET and the session is still pending. -/
theorem C1_login_failure_retryable_witness :
    mapFind demoPendingManager.pendingPlayers ("p1") = some (newPlayer ("p1") 0) ∧
    (demoPendingManager.handleLogin ("p1") ("bad") (Except.ok (50 : ℚ)) 5).2.1 =
      .fail ("INVALID_WALLET") ∧
    ("p1", Msg.LOGIN_FAILED ("INVALID_WALLET")) ∈
      (demoPendingManager.handleLogin ("p1") ("bad") (Except.ok (50 : ℚ)) 5).2.2 ∧
    mapFind ((demoPendingManager.handleLogin ("p1") ("bad")
        (Except.ok (50 : ℚ)) 5).1).pendingPlayers ("p1") = some (newPlayer ("p1") 0) := by
  have h := C1_login_failure_retryable demoPendingManager ("p1") ("bad") (Except.ok (50 : ℚ)) 5
    (newPlayer ("p1") 0) (by decide) ("INVALID_WALLET") (Or.inl rfl) (by decide)
  exact ⟨by decide, by decide, h.1, h.2⟩

-- ===========================================================================
-- C10: absent / null / zero claimed block type is never mineable
-- ===========================================================================

theorem map_replace_eq_self {K : Type} (l : List (String × GameRoom K)) (rid : String)
    (room : GameRoom K) (h : ∀ q ∈ l, q.1 = rid → q.2 = room) :
    l.map (fun q => if q.1 = rid then (rid, room) else q) = l := by
  induction l with
  | nil => rfl
  | cons hd tl ih =>
    simp only [List.map_cons]
    rw [ih (fun q hq hq2 => h q (by simp [hq]) hq2)]
    by_cases h1 : hd.1 = rid
    · have h2 := h hd (by simp) h1
      rw [if_pos h1, ← h1, ← h2]
    · rw [if_neg h1]

/-- C10: a routed MINE_BLOCK whose claimed block-type field is absent, null or
zero gets block type 0 (AIR) substituted by the router; AIR is not in the
mineable set, so for an in-room session that passes the cooldown and range
checks the request is rejected with NOT_MINEABLE and the whole gatekeeper
state — the room, its world-delta store, and the session with its earnings —
is unchanged, and nothing is sent. (The uniqueness hypotheses say the room id
indexes only this room, which always holds for JS Map-backed collections.) -/
theorem C10_default_blocktype_not_mineable {K : Type} [LinearOrderedField K]
    (sqrt : K → K) (m : RoomManager K) (playerId rid : String)
    (room : GameRoom K) (player : Player K)
    (blockX blockY blockZ : Int) (blockType : Option Nat)
    (balanceResult : Except Unit K) (now : Int)
    (hrid : mapFind m.playerRooms playerId = some rid)
    (hroom : m.findRoom rid = some room)
    (hplayer : mapFind room.players playerId = some player)
    (hbt : blockType = none ∨ blockType = some 0)
    (hcool : ¬ now - player.lastMineTime < MINING_COOLDOWN)
    (hrange : player.canReachBlock sqrt blockX blockY blockZ = true)
    (huF : ∀ q ∈ m.freeRooms, q.1 = rid → q.2 = room)
    (huP : ∀ q ∈ m.premiumRooms, q.1 = rid → q.2 = room)
    (huW : ∀ q ∈ m.whaleRooms, q.1 = rid → q.2 = room) :
    m.routeMessage sqrt playerId (.MINE_BLOCK blockX blockY blockZ blockType) balanceResult now =
      (m, .mine (.fail ("NOT_MINEABLE")), []) := by
  have hbt0 : jsOr blockType 0 = 0 := by
    rcases hbt with h | h <;> simp [h, jsOr]
  have hmine : GameRoom.handleMineBlock sqrt room player blockX blockY blockZ
      (jsOr blockType 0) now = (room, .fail ("NOT_MINEABLE"), []) := by
    rw [hbt0]
    unfold GameRoom.handleMineBlock
    rw [if_neg hcool, if_neg (by simp [hrange]), if_pos (by decide)]
  have hset : m.setRoom rid room = m := by
    unfold RoomManager.setRoom
    rw [map_replace_eq_self _ _ _ huF, map_replace_eq_self _ _ _ huP,
      map_replace_eq_self _ _ _ huW]
  unfold RoomManager.routeMessage
  simp only [hrid, hroom, hplayer, hmine, hset]

/-- Witness for C10: the miner session passes cooldown and range, the message
carries no blockType field, and the route replies NOT_MINEABLE leaving the
gatekeeper state identical. -/
theorem C10_default_blocktype_not_mineable_witness :
    mapFind demoManager.playerRooms ("p1") = some ("free-main") ∧
    demoManager.findRoom ("free-main") = some demoRoom ∧
    mapFind demoRoom.players ("p1") = some demoMiner ∧
    (¬ (1000 : Int) - demoMiner.lastMineTime < MINING_COOLDOWN) ∧
    demoMiner.canReachBlock (fun x => x) 0 6 0 = true ∧
    demoManager.routeMessage (fun x => x) ("p1") (.MINE_BLOCK 0 6 0 none)
        (Except.ok (0 : ℚ)) 1000 =
      (demoManager, .mine (.fail ("NOT_MINEABLE")), []) := by
  have hrange : demoMiner.canReachBlock (fun x => x) 0 6 0 = true := by
    simp [Player.canReachBlock, Player.distanceTo, demoMiner, newPlayer, MINING_RANGE]
  exact ⟨by decide, by decide, by decide, by decide, hrange,
    C10_default_blocktype_not_mineable (fun x => x) demoManager ("p1") ("free-main")
      demoRoom demoMiner 0 6 0 none (Except.ok (0 : ℚ)) 1000
      (by decide) (by decide) (by decide) (Or.inl rfl) (by decide) hrange
      (by decide) (by decide) (by decide)⟩
